import Mathlib

/-!
Shallow embedding of the user-directory store in src/store/userStore.ts
(a Zustand store over the Fake Store API) and proofs of the specified
properties of its four operations: fetchUsers, fetchUserById, clearError
and setSelectedUser.

The network is modelled by an explicit parameter of type Except e A:
awaiting the HTTP request either returns a decoded value (Except.ok) or
throws (Except.error).  The JavaScript try/catch around the await is
modelled with Except.tryCatch; each operation also comes in a "Run"
variant living in the Except monad, used to prove that no exception ever
escapes to the caller.  fetchUserById additionally returns the list of
network requests it issued, so that cache-hit behaviour ("no network
call") is statable.
-/

namespace FakeStore

/-- Geolocation part of an address, as in the User interface of
userStore.ts (both coordinates are strings in the API schema). -/
structure Geolocation where
  lat : String
  long : String
deriving Repr, DecidableEq

/-- Address part of a user record, as in the User interface of userStore.ts. -/
structure Address where
  city : String
  street : String
  number : Int
  zipcode : String
  geolocation : Geolocation
deriving Repr, DecidableEq

/-- Name part of a user record, as in the User interface of userStore.ts. -/
structure FullName where
  firstname : String
  lastname : String
deriving Repr, DecidableEq

/-- One directory entry, mirroring the exported User interface of
userStore.ts field for field. -/
structure User where
  id : Int
  email : String
  username : String
  password : String
  name : FullName
  address : Address
  phone : String
deriving Repr, DecidableEq

/-- The store state held by the Zustand store in userStore.ts:
users array, loading flag, error slot and selectedUser slot. -/
structure UserState where
  users : List User
  loading : Bool
  error : Option String
  selectedUser : Option User
deriving Repr, DecidableEq

/-- The initial state of the store as created in userStore.ts:
users: [], loading: false, error: null, selectedUser: null. -/
def initialState : UserState :=
  { users := [], loading := false, error := none, selectedUser := none }

/-- A network request issued against the remote API: either the
full-collection endpoint GET /users or the single-user endpoint
GET /users/id. -/
inductive Request where
  | allUsers : Request
  | userById : Int → Request
deriving Repr, DecidableEq

/-- The fixed error message written by fetchUsers on failure. -/
def fetchUsersErrorMsg : String := "Failed to fetch users. Please try again."

/-- The error message written by fetchUserById on failure, with the
requested id interpolated as in the template literal of userStore.ts. -/
def fetchUserByIdErrorMsg (id : Int) : String :=
  "Failed to fetch user with ID " ++ toString id ++ ". Please try again."

/-- fetchUsers from userStore.ts.  First sets loading to true and clears
error; then, if the network response net arrives (Except.ok data), stores
data wholesale into users with loading false and error cleared; if the
request throws (Except.error), sets loading false and the fixed error
message, leaving users untouched. -/
def fetchUsers {e : Type} (net : Except e (List User)) (s : UserState) :
    UserState :=
  let s := { s with loading := true, error := none }
  match net with
  | Except.ok data => { s with users := data, loading := false, error := none }
  | Except.error _ =>
      { s with loading := false, error := some fetchUsersErrorMsg }

/-- fetchUsers of userStore.ts written in the Except monad: the body of
the try block (awaiting net may throw) wrapped in Except.tryCatch, as the
JavaScript try/catch wraps the await. -/
def fetchUsersRun {e : Type} (net : Except e (List User)) (s : UserState) :
    Except e UserState :=
  let s := { s with loading := true, error := none }
  Except.tryCatch
    (do
      let data ← net
      pure { s with users := data, loading := false, error := none })
    (fun _ =>
      pure { s with loading := false, error := some fetchUsersErrorMsg })

/-- fetchUserById from userStore.ts.  Sets loading true and clears error,
then looks the id up in the current users array with find (first match on
user.id === id).  On a cache hit it stores that record into selectedUser,
sets loading false and issues no network request.  On a miss it issues
the single-user request; on success it stores the response into
selectedUser with error cleared, on failure it sets the interpolated
error message and clears selectedUser.  The second component is the list
of network requests issued. -/
def fetchUserById {e : Type} (id : Int) (net : Except e User)
    (s : UserState) : UserState × List Request :=
  let s := { s with loading := true, error := none }
  match s.users.find? (fun user => user.id == id) with
  | some existingUser =>
      ({ s with selectedUser := some existingUser, loading := false }, [])
  | none =>
      match net with
      | Except.ok data =>
          ({ s with selectedUser := some data, loading := false, error := none },
            [Request.userById id])
      | Except.error _ =>
          ({ s with loading := false, error := some (fetchUserByIdErrorMsg id), selectedUser := none },
            [Request.userById id])

/-- fetchUserById of userStore.ts written in the Except monad: the whole
try body (cache lookup, then possibly awaiting net, which may throw)
wrapped in Except.tryCatch, as the JavaScript try/catch wraps it. -/
def fetchUserByIdRun {e : Type} (id : Int) (net : Except e User)
    (s : UserState) : Except e UserState :=
  let s := { s with loading := true, error := none }
  Except.tryCatch
    (match s.users.find? (fun user => user.id == id) with
     | some existingUser =>
         pure { s with selectedUser := some existingUser, loading := false }
     | none => do
         let data ← net
         pure { s with selectedUser := some data, loading := false, error := none })
    (fun _ =>
      pure { s with loading := false, error := some (fetchUserByIdErrorMsg id), selectedUser := none })

/-- clearError from userStore.ts: set error to null, nothing else. -/
def clearError (s : UserState) : UserState := { s with error := none }

/-- setSelectedUser from userStore.ts: overwrite the selectedUser slot. -/
def setSelectedUser (user : Option User) (s : UserState) : UserState :=
  { s with selectedUser := user }

/-- A concrete user record used to instantiate theorems at a concrete input. -/
def sampleUser : User :=
  { id := 2
    email := "john@gmail.com"
    username := "johnd"
    password := "m38rmF"
    name := { firstname := "john", lastname := "doe" }
    address :=
      { city := "kilcoole"
        street := "new road"
        number := 7682
        zipcode := "12926-3874"
        geolocation := { lat := "-37.3159", long := "81.1496" } }
    phone := "1-570-236-7033" }

/-- On a cache hit (the id is found in the users array), fetchUserById
stores the found record, clears loading, and issues no request. -/
theorem fetchUserById_eq_hit {e : Type} (id : Int) (net : Except e User)
    (s : UserState) (w : User)
    (h : s.users.find? (fun user => user.id == id) = some w) :
    fetchUserById id net s =
      ({ s with loading := false, error := none, selectedUser := some w }, []) := by
  simp [fetchUserById, h]

/-- On a cache miss with a successful request, fetchUserById stores the
response into selectedUser and issues exactly the single-user request. -/
theorem fetchUserById_eq_miss_ok {e : Type} (id : Int) (u : User)
    (s : UserState)
    (h : s.users.find? (fun user => user.id == id) = none) :
    fetchUserById id (Except.ok u : Except e User) s =
      ({ s with loading := false, error := none, selectedUser := some u },
        [Request.userById id]) := by
  simp [fetchUserById, h]

/-- On a cache miss with a failing request, fetchUserById clears
selectedUser, writes the interpolated message, and issued the request. -/
theorem fetchUserById_eq_miss_err {e : Type} (id : Int) (err : e)
    (s : UserState)
    (h : s.users.find? (fun user => user.id == id) = none) :
    fetchUserById id (Except.error err : Except e User) s =
      ({ s with loading := false, error := some (fetchUserByIdErrorMsg id), selectedUser := none },
        [Request.userById id]) := by
  simp [fetchUserById, h]

/-- C2: every fetchUsers call whose request succeeds with response R
ends with loading false, error empty, and users exactly R (order
preserved, since users is the response list itself), from any pre-call
state. -/
theorem fetchUsers_success (e : Type) (R : List User) (s : UserState) :
    (fetchUsers (Except.ok R : Except e (List User)) s).loading = false ∧
    (fetchUsers (Except.ok R : Except e (List User)) s).error = none ∧
    (fetchUsers (Except.ok R : Except e (List User)) s).users = R :=
  ⟨rfl, rfl, rfl⟩

/-- C3: every fetchUsers call whose request fails ends with loading
false, error equal to the fixed message, and users exactly equal to the
pre-call users. -/
theorem fetchUsers_failure (e : Type) (err : e) (s : UserState) :
    (fetchUsers (Except.error err : Except e (List User)) s).loading = false ∧
    (fetchUsers (Except.error err : Except e (List User)) s).error =
      some "Failed to fetch users. Please try again." ∧
    (fetchUsers (Except.error err : Except e (List User)) s).users = s.users :=
  ⟨rfl, rfl, rfl⟩

/-- C8: clearError sets error to empty and changes nothing else; it is
idempotent, and when error is already empty it leaves the whole state
unchanged. -/
theorem clearError_spec (s : UserState) :
    (clearError s).error = none ∧
    (clearError s).users = s.users ∧
    (clearError s).selectedUser = s.selectedUser ∧
    (clearError s).loading = s.loading ∧
    clearError (clearError s) = clearError s ∧
    (s.error = none → clearError s = s) := by
  refine ⟨rfl, rfl, rfl, rfl, rfl, ?_⟩
  intro h
  cases s
  simp_all [clearError]

/-- Witness for C8 at a concrete state with error already empty. -/
theorem clearError_spec_witness :
    initialState.error = none ∧ clearError initialState = initialState :=
  ⟨rfl, (clearError_spec initialState).2.2.2.2.2 rfl⟩

/-- C9: setSelectedUser u followed by reading selectedUser returns
exactly u, from any prior state; the other three slots are untouched. -/
theorem setSelectedUser_roundtrip (u : Option User) (s : UserState) :
    (setSelectedUser u s).selectedUser = u ∧
    (setSelectedUser u s).users = s.users ∧
    (setSelectedUser u s).error = s.error ∧
    (setSelectedUser u s).loading = s.loading :=
  ⟨rfl, rfl, rfl, rfl⟩

/-- C1: when some record with the requested id is present in users,
fetchUserById issues no network request to the single-user endpoint,
ends with loading false, and selectedUser equal to a stored record with
that id; this holds for every state and id (no expiration, never a
re-fetch of a present id). -/
theorem fetchUserById_cache_hit (e : Type) (id : Int) (net : Except e User)
    (s : UserState) (h : ∃ u ∈ s.users, u.id = id) :
    (fetchUserById id net s).2 = [] ∧
    (fetchUserById id net s).1.loading = false ∧
    ∃ u ∈ s.users, u.id = id ∧
      (fetchUserById id net s).1.selectedUser = some u := by
  obtain ⟨u, hu, hid⟩ := h
  have hsome : (s.users.find? (fun user => user.id == id)).isSome := by
    rw [List.find?_isSome]
    exact ⟨u, hu, by simp [hid]⟩
  obtain ⟨w, hw⟩ := Option.isSome_iff_exists.mp hsome
  have hwid : w.id = id := by simpa using List.find?_some hw
  have hwmem : w ∈ s.users := List.mem_of_find?_eq_some hw
  rw [fetchUserById_eq_hit id net s w hw]
  exact ⟨rfl, rfl, w, hwmem, hwid, rfl⟩

/-- Witness for C1: users holds the record with id 2; even a failing
network stub is never consulted. -/
theorem fetchUserById_cache_hit_witness :
    (fetchUserById 2 (Except.error () : Except Unit User)
        { initialState with users := [sampleUser] }).2 = [] ∧
    (fetchUserById 2 (Except.error () : Except Unit User)
        { initialState with users := [sampleUser] }).1.loading = false ∧
    ∃ u ∈ ({ initialState with users := [sampleUser] } : UserState).users,
      u.id = 2 ∧
      (fetchUserById 2 (Except.error () : Except Unit User)
        { initialState with users := [sampleUser] }).1.selectedUser = some u :=
  fetchUserById_cache_hit Unit 2 (Except.error ())
    { initialState with users := [sampleUser] } ⟨sampleUser, by simp, rfl⟩

/-- C10: when users holds several records with the requested id,
fetchUserById sets selectedUser to the first matching record in list
order and still issues no network request. -/
theorem fetchUserById_first_match (e : Type) (id : Int) (net : Except e User)
    (s : UserState) (l1 l2 : List User) (u : User)
    (hs : s.users = l1 ++ u :: l2) (hu : u.id = id)
    (hl : ∀ v ∈ l1, v.id ≠ id) :
    (fetchUserById id net s).1.selectedUser = some u ∧
    (fetchUserById id net s).2 = [] := by
  have h1 : l1.find? (fun user => user.id == id) = none := by
    rw [List.find?_eq_none]
    intro v hv
    simpa using hl v hv
  have hfind : s.users.find? (fun user => user.id == id) = some u := by
    rw [hs, List.find?_append, h1, List.find?_cons_of_pos l2 (by simp [hu])]
    rfl
  rw [fetchUserById_eq_hit id net s u hfind]
  exact ⟨rfl, rfl⟩

/-- Witness for C10: two records share id 2; the first one is selected
and the failing stub is never consulted. -/
theorem fetchUserById_first_match_witness :
    (fetchUserById 2 (Except.error () : Except Unit User)
        { initialState with
          users := [sampleUser, { sampleUser with username := "dup" }] }).1.selectedUser =
      some sampleUser ∧
    (fetchUserById 2 (Except.error () : Except Unit User)
        { initialState with
          users := [sampleUser, { sampleUser with username := "dup" }] }).2 = [] :=
  fetchUserById_first_match Unit 2 (Except.error ())
    { initialState with
      users := [sampleUser, { sampleUser with username := "dup" }] }
    [] [{ sampleUser with username := "dup" }] sampleUser rfl rfl (by simp)

/-- C4: when the id is absent from users and the request fails,
fetchUserById ends with selectedUser empty, loading false, and error
equal to the message with the requested id interpolated. -/
theorem fetchUserById_miss_failure (e : Type) (err : e) (id : Int)
    (s : UserState) (h : ∀ u ∈ s.users, u.id ≠ id) :
    (fetchUserById id (Except.error err : Except e User) s).1.selectedUser = none ∧
    (fetchUserById id (Except.error err : Except e User) s).1.loading = false ∧
    (fetchUserById id (Except.error err : Except e User) s).1.error =
      some ("Failed to fetch user with ID " ++ toString id ++ ". Please try again.") := by
  have hfind : s.users.find? (fun user => user.id == id) = none := by
    rw [List.find?_eq_none]
    intro u hu
    simpa using h u hu
  rw [fetchUserById_eq_miss_err id err s hfind]
  exact ⟨rfl, rfl, rfl⟩

/-- Witness for C4 at id 99 on the empty initial store: the message
carries the literal "99". -/
theorem fetchUserById_miss_failure_witness :
    (fetchUserById 99 (Except.error () : Except Unit User) initialState).1.selectedUser = none ∧
    (fetchUserById 99 (Except.error () : Except Unit User) initialState).1.loading = false ∧
    (fetchUserById 99 (Except.error () : Except Unit User) initialState).1.error =
      some "Failed to fetch user with ID 99. Please try again." := by
  have h := fetchUserById_miss_failure Unit () 99 initialState (by simp [initialState])
  refine ⟨h.1, h.2.1, ?_⟩
  rw [h.2.2]
  rfl

/-- C5: when the id is absent from users and the request succeeds with
user u, fetchUserById sets selectedUser to u while users is exactly the
pre-call list (the fetched user is never merged back). -/
theorem fetchUserById_miss_success (e : Type) (id : Int) (u : User)
    (s : UserState) (h : ∀ v ∈ s.users, v.id ≠ id) :
    (fetchUserById id (Except.ok u : Except e User) s).1.selectedUser = some u ∧
    (fetchUserById id (Except.ok u : Except e User) s).1.users = s.users := by
  have hfind : s.users.find? (fun user => user.id == id) = none := by
    rw [List.find?_eq_none]
    intro v hv
    simpa using h v hv
  rw [fetchUserById_eq_miss_ok id u s hfind]
  exact ⟨rfl, rfl⟩

/-- Witness for C5: fetching id 2 on the empty initial store with a
stubbed success; the list stays empty. -/
theorem fetchUserById_miss_success_witness :
    (fetchUserById 2 (Except.ok sampleUser : Except Unit User) initialState).1.selectedUser =
      some sampleUser ∧
    (fetchUserById 2 (Except.ok sampleUser : Except Unit User) initialState).1.users =
      initialState.users :=
  fetchUserById_miss_success Unit 2 sampleUser initialState (by simp [initialState])

/-- C6: run in the exception monad with the try/catch of the source,
both fetch operations always return Except.ok — no exception escapes to
the caller for any outcome of the remote request — and the resulting
state is exactly the one of the absorbed operation, whose failures are
reported only through the error slot. -/
theorem fetch_operations_no_throw (e : Type) (net : Except e (List User))
    (net2 : Except e User) (id : Int) (s : UserState) :
    fetchUsersRun net s = Except.ok (fetchUsers net s) ∧
    fetchUserByIdRun id net2 s = Except.ok (fetchUserById id net2 s).1 := by
  constructor
  · cases net <;> rfl
  · cases hfind : s.users.find? (fun user => user.id == id) with
    | some w =>
        simp [fetchUserByIdRun, fetchUserById, hfind, Except.tryCatch,
          pure, Except.pure]
    | none =>
        cases net2 <;>
          simp [fetchUserByIdRun, fetchUserById, hfind, Except.tryCatch,
            pure, Except.pure, Bind.bind, Except.bind]

/-- C7: every completed fetch operation ends with loading false and
exactly one of the two outcomes: error empty with the success data
written (for fetchUsers the response list, for fetchUserById some
selected user), or error holding the operation's message with the data
slot untouched (users unchanged) respectively cleared (selectedUser
none); error can never be both empty and set. -/
theorem completed_fetch_invariant (e : Type) (net : Except e (List User))
    (net2 : Except e User) (id : Int) (s : UserState) :
    (fetchUsers net s).loading = false ∧
    ((fetchUsers net s).error = none →
      ∃ R, net = Except.ok R ∧ (fetchUsers net s).users = R) ∧
    (∀ msg, (fetchUsers net s).error = some msg →
      msg = fetchUsersErrorMsg ∧ (fetchUsers net s).users = s.users) ∧
    (fetchUserById id net2 s).1.loading = false ∧
    ((fetchUserById id net2 s).1.error = none →
      ∃ u, (fetchUserById id net2 s).1.selectedUser = some u) ∧
    (∀ msg, (fetchUserById id net2 s).1.error = some msg →
      msg = fetchUserByIdErrorMsg id ∧
      (fetchUserById id net2 s).1.selectedUser = none) := by
  refine ⟨?_, ?_, ?_, ?_, ?_, ?_⟩
  · cases net <;> rfl
  · cases net with
    | ok R => intro _; exact ⟨R, rfl, rfl⟩
    | error err => intro hc; simp [fetchUsers] at hc
  · cases net with
    | ok R => intro msg hmsg; simp [fetchUsers] at hmsg
    | error err =>
        intro msg hmsg
        simp [fetchUsers, fetchUsersErrorMsg] at hmsg
        exact ⟨hmsg.symm, rfl⟩
  · cases hfind : s.users.find? (fun user => user.id == id) with
    | some w => rw [fetchUserById_eq_hit id net2 s w hfind]
    | none =>
        cases net2 with
        | ok u => rw [fetchUserById_eq_miss_ok id u s hfind]
        | error err => rw [fetchUserById_eq_miss_err id err s hfind]
  · cases hfind : s.users.find? (fun user => user.id == id) with
    | some w =>
        intro _
        rw [fetchUserById_eq_hit id net2 s w hfind]
        exact ⟨w, rfl⟩
    | none =>
        cases net2 with
        | ok u =>
            intro _
            rw [fetchUserById_eq_miss_ok id u s hfind]
            exact ⟨u, rfl⟩
        | error err =>
            rw [fetchUserById_eq_miss_err id err s hfind]
            intro hc
            simp at hc
  · cases hfind : s.users.find? (fun user => user.id == id) with
    | some w =>
        rw [fetchUserById_eq_hit id net2 s w hfind]
        intro msg hmsg
        simp at hmsg
    | none =>
        cases net2 with
        | ok u =>
            rw [fetchUserById_eq_miss_ok id u s hfind]
            intro msg hmsg
            simp at hmsg
        | error err =>
            rw [fetchUserById_eq_miss_err id err s hfind]
            intro msg hmsg
            simp at hmsg
            exact ⟨hmsg.symm, rfl⟩

/-- Witness for C7: the success branch of the invariant at a concrete
fetchUsers call on the initial state. -/
theorem completed_fetch_invariant_witness :
    ∃ R, (Except.ok [sampleUser] : Except Unit (List User)) = Except.ok R ∧
      (fetchUsers (Except.ok [sampleUser] : Except Unit (List User))
        initialState).users = R :=
  (completed_fetch_invariant Unit (Except.ok [sampleUser])
    (Except.ok sampleUser) 2 initialState).2.1 rfl

end FakeStore
